import Mathlib

/-!
Verification of the `sqlutil` helper library (package `sqlutil`).

The library offers three helpers over a relational-database client:
`Transact` (commit/rollback discipline around a callback), `ExecFile`
(execute a SQL script file; a single-shot variant and a parsed variant),
and `TruncateAll` (truncate every table listed by `SHOW TABLES`).

The embedding is a shallow one: the database, the filesystem and the SQL
parser are abstracted into explicit outcome parameters (what `BeginTx`,
`Commit`, `Rollback`, `ExecContext`, `QueryContext`, `os.ReadFile`,
`parser.Parse` and `StmtNode.Restore` would return), and each helper is
translated into a pure Lean function that returns both the trace of calls
it issues and the value it returns, following the Go control flow line by
line.
-/

/-- Model of a Go `error` value as built by this library.
`new` models `oops.New` / `errors.New` (a fresh error with a message);
`wrapf` models `oops.Wrapf` / `errors.Wrap(f)` applied to a non-nil cause
(a wrapping error carrying a formatted message);
`wrap` models `oops.Wrap` applied to a non-nil cause (a wrapping error
carrying no message of its own). All three preserve the cause for
`errors.Is` traversal. -/
inductive GoErr where
  | new (msg : String)
  | wrapf (msg : String) (cause : GoErr)
  | wrap (cause : GoErr)
deriving DecidableEq

/-- Model of Go `errors.Is(e, target)`: the identity check succeeds when
`target` is `e` itself or is reachable from `e` by unwrapping. -/
def GoErr.is (e target : GoErr) : Bool :=
  if e = target then true
  else
    match e with
    | .new _ => false
    | .wrapf _ c => c.is target
    | .wrap c => c.is target

/-- Model of `oops.Wrap` on a possibly-nil error: `oops.Wrap(nil)` returns
nil, otherwise the error is wrapped without an extra message. -/
def oopsWrapOpt : Option GoErr → Option GoErr
  | none => none
  | some e => some (.wrap e)

/-- Outcome of the caller-supplied callback `f(ctx, tx)` inside `Transact`:
it returns nil, returns a non-nil error, or panics with a payload
(the payload is modelled as an opaque string). -/
inductive FOutcome where
  | ok
  | fail (e : GoErr)
  | panics (p : String)
deriving DecidableEq

/-- Calls that `Transact` issues, in order, on its collaborators:
`beginTx` is `txStarter.BeginTx`, `callF c t` is the invocation of the
callback with context `c` and transaction handle `t`, `rollback` is
`tx.Rollback`, `commit` is `tx.Commit`. -/
inductive TEvent (Ctx Tx : Type) where
  | beginTx
  | callF (c : Ctx) (t : Tx)
  | rollback
  | commit
deriving DecidableEq

/-- How a `Transact` invocation ends: a normal return carrying the named
result `err` (`none` models a nil error), or a re-raised panic with its
payload. -/
inductive TResult where
  | ret (e : Option GoErr)
  | panicked (p : String)
deriving DecidableEq

/-- `true` exactly for the two transaction-terminating calls
`tx.Commit` and `tx.Rollback`. -/
def TEvent.isTxEnd {Ctx Tx : Type} : TEvent Ctx Tx → Bool
  | .rollback => true
  | .commit => true
  | _ => false

/-- Shallow embedding of `Transact` (src/sqlutil.go).

Go source, translated branch by branch:
```
func Transact(ctx, txStarter, f) (err error) {
    var tx *sql.Tx
    if tx, err = txStarter.BeginTx(ctx, nil); err != nil {
        return oops.Wrapf(err, "failed to begin transaction")
    }
    defer func() {
        if r := recover(); r != nil { tx.Rollback(); panic(r) }
        else if err != nil { tx.Rollback() }
        else if err = tx.Commit(); err != nil {
            err = oops.Wrapf(err, "failed to commit transaction")
        }
    }()
    err = f(ctx, tx)
    err = oops.Wrap(err)
    return
}
```
`beginRes` is what `BeginTx` returns, `rollbackErr` what `tx.Rollback`
would return (the Go code discards it), `commitErr` what `tx.Commit`
would return. The result is the pair (trace of calls, final outcome). -/
def Transact {Ctx Tx : Type} (ctx : Ctx) (beginRes : Except GoErr Tx)
    (rollbackErr commitErr : Option GoErr) (f : Ctx → Tx → FOutcome) :
    List (TEvent Ctx Tx) × TResult :=
  match beginRes with
  | .error e => ([.beginTx], .ret (some (.wrapf "failed to begin transaction" e)))
  | .ok tx =>
    match f ctx tx with
    | .panics p => ([.beginTx, .callF ctx tx, .rollback], .panicked p)
    | .fail e => ([.beginTx, .callF ctx tx, .rollback], .ret (oopsWrapOpt (some e)))
    | .ok =>
      match commitErr with
      | some ce =>
        ([.beginTx, .callF ctx tx, .commit],
          .ret (some (.wrapf "failed to commit transaction" ce)))
      | none => ([.beginTx, .callF ctx tx, .commit], .ret none)

/-- Model of Go `filepath.IsAbs` (Unix): a path is absolute exactly when
its first character is a slash. -/
def filepathIsAbs (path : String) : Bool :=
  path.data.head? == some '/'

/-- Observable behaviour of one `ExecFile` invocation: whether the file
was read, the list of query strings passed to `ExecContext` in order, and
the returned error (`none` is a nil error). -/
structure ExecFileOut where
  fileRead : Bool
  calls : List String
  res : Option GoErr
deriving DecidableEq

/-- Shallow embedding of the single-shot `ExecFile` (src/sqlutil.go):
reject a non-absolute path with `oops.New("path must be absolute")`,
read the file (`readFn path` models `os.ReadFile(path)`), then submit the
whole contents as one `ExecContext` call (`execErr q` models the error
that executing query `q` returns). -/
def ExecFile (path : String) (readFn : String → Except GoErr String)
    (execErr : String → Option GoErr) : ExecFileOut :=
  if ¬ filepathIsAbs path then ⟨false, [], some (.new "path must be absolute")⟩
  else
    match readFn path with
    | .error e => ⟨true, [], some (.wrapf "failed to read file" e)⟩
    | .ok contents =>
      match execErr contents with
      | some e => ⟨true, [contents], some (.wrap e)⟩
      | none => ⟨true, [contents], none⟩

/-- The per-statement loop of the parsed `ExecFile` variant
(src/unnamed/part_003): for each statement node in order, re-serialize it
(`restore` models `stmtNode.Restore`) and execute the resulting text;
abort on the first restore or execution failure. Returns the executed
query strings in order and the loop's error. -/
def execStmtsParsed {σ : Type} (restore : σ → Except GoErr String)
    (execErr : String → Option GoErr) : List σ → List String × Option GoErr
  | [] => ([], none)
  | n :: ns =>
    match restore n with
    | .error e => ([], some (.wrapf "failed to restore sql" e))
    | .ok s =>
      match execErr s with
      | some e => ([s], some (.wrapf "failed to execute sql" e))
      | none =>
        let r := execStmtsParsed restore execErr ns
        (s :: r.1, r.2)

/-- Shallow embedding of the parsed `ExecFile` variant
(src/unnamed/part_003): reject a non-absolute path, read the file, parse
the contents into statement nodes (`parse` models `parser.New().Parse`),
then restore and execute each node in file order via `execStmtsParsed`. -/
def ExecFileParsed {σ : Type} (path : String)
    (readFn : String → Except GoErr String)
    (parse : String → Except GoErr (List σ))
    (restore : σ → Except GoErr String)
    (execErr : String → Option GoErr) : ExecFileOut :=
  if ¬ filepathIsAbs path then ⟨false, [], some (.new "path must be absolute")⟩
  else
    match readFn path with
    | .error e => ⟨true, [], some (.wrapf ("failed to read file: " ++ path) e)⟩
    | .ok contents =>
      match parse contents with
      | .error e => ⟨true, [], some (.wrapf "failed to parse sql" e)⟩
      | .ok nodes =>
        let r := execStmtsParsed restore execErr nodes
        ⟨true, r.1, r.2⟩

/-- Model of the `*sql.Rows` cursor returned by `QueryContext`:
`scans` is the per-row outcome of `rows.Scan` for each row the cursor
yields, `closeErr` what `rows.Close` returns after a full iteration, and
`iterErr` what `rows.Err` reports. -/
structure RowsModel where
  scans : List (Except GoErr String)
  closeErr : Option GoErr
  iterErr : Option GoErr

/-- The scan loop of `listAllTableNames`: scan each yielded row in order,
returning the collected names, or the wrapped error of the first failing
`rows.Scan`. -/
def scanTableNames : List (Except GoErr String) → Except GoErr (List String)
  | [] => .ok []
  | .error e :: _ => .error (.wrapf "failed to scan table name" e)
  | .ok n :: rest =>
    match scanTableNames rest with
    | .error e => .error e
    | .ok names => .ok (n :: names)

/-- Shallow embedding of `listAllTableNames` (src/sqlutil.go): run the
introspection query `SHOW TABLES` (`queryFn` models `QueryContext`), scan
every row into a table name, then check `rows.Close` and `rows.Err`. -/
def listAllTableNames (queryFn : String → Except GoErr RowsModel) :
    Except GoErr (List String) :=
  match queryFn "SHOW TABLES" with
  | .error e => .error (.wrapf "failed to show tables" e)
  | .ok rows =>
    match scanTableNames rows.scans with
    | .error e => .error e
    | .ok names =>
      match rows.closeErr with
      | some e => .error (.wrapf "failed to close rows" e)
      | none =>
        match rows.iterErr with
        | some e => .error (.wrap e)
        | none => .ok names

/-- The truncation loop of `TruncateAll`: issue `TRUNCATE <name>` for each
listed table name in order, aborting on the first execution failure.
Returns the executed query strings in order and the loop's error. -/
def truncateEach (execErr : String → Option GoErr) :
    List String → List String × Option GoErr
  | [] => ([], none)
  | n :: ns =>
    match execErr ("TRUNCATE " ++ n) with
    | some e =>
      (["TRUNCATE " ++ n], some (.wrapf ("failed to truncate table: " ++ n) e))
    | none =>
      let r := truncateEach execErr ns
      (("TRUNCATE " ++ n) :: r.1, r.2)

/-- Shallow embedding of `TruncateAll` (src/sqlutil.go): list all table
names via `listAllTableNames`, then truncate each in listing order via
`truncateEach`. Returns the executed truncate statements in order and the
returned error. -/
def TruncateAll (queryFn : String → Except GoErr RowsModel)
    (execErr : String → Option GoErr) : List String × Option GoErr :=
  match listAllTableNames queryFn with
  | .error e => ([], some (.wrapf "failed to list all table names" e))
  | .ok names => truncateEach execErr names

/-! ### Helper lemmas (shared) -/

/-- `errors.Is(e, e)` always succeeds. -/
theorem goErr_is_self (e : GoErr) : e.is e = true := by
  unfold GoErr.is
  rw [if_pos rfl]

/-- `errors.Is` succeeds against the cause of a message-free wrap. -/
theorem goErr_is_wrap (e : GoErr) : (GoErr.wrap e).is e = true := by
  unfold GoErr.is
  split
  · rfl
  · exact goErr_is_self e

/-- When every statement of a list restores and executes cleanly, the
per-statement loop issues every restored text in order and returns nil. -/
theorem execStmtsParsed_all_ok {σ : Type} (restore : σ → Except GoErr String)
    (execErr : String → Option GoErr) (rt : σ → String) :
    ∀ ns : List σ, (∀ n ∈ ns, restore n = .ok (rt n)) →
      (∀ n ∈ ns, execErr (rt n) = none) →
      execStmtsParsed restore execErr ns = (ns.map rt, none) := by
  intro ns
  induction ns with
  | nil => intro _ _; simp [execStmtsParsed]
  | cons n ns ih =>
    intro h1 h2
    have hr : restore n = .ok (rt n) := h1 n (by simp)
    have he : execErr (rt n) = none := h2 n (by simp)
    have htail := ih (fun m hm => h1 m (by simp [hm])) (fun m hm => h2 m (by simp [hm]))
    simp [execStmtsParsed, hr, he, htail]

/-- The per-statement loop over `ns1 ++ ns2`, when every statement of
`ns1` restores and executes cleanly, issues all of `ns1` and then behaves
as the loop over `ns2`. -/
theorem execStmtsParsed_append {σ : Type} (restore : σ → Except GoErr String)
    (execErr : String → Option GoErr) (rt : σ → String) :
    ∀ ns1 ns2 : List σ, (∀ n ∈ ns1, restore n = .ok (rt n)) →
      (∀ n ∈ ns1, execErr (rt n) = none) →
      execStmtsParsed restore execErr (ns1 ++ ns2)
        = (ns1.map rt ++ (execStmtsParsed restore execErr ns2).1,
           (execStmtsParsed restore execErr ns2).2) := by
  intro ns1
  induction ns1 with
  | nil => intro ns2 _ _; simp
  | cons n ns ih =>
    intro ns2 h1 h2
    have hr : restore n = .ok (rt n) := h1 n (by simp)
    have he : execErr (rt n) = none := h2 n (by simp)
    have htail := ih ns2 (fun m hm => h1 m (by simp [hm])) (fun m hm => h2 m (by simp [hm]))
    simp [execStmtsParsed, hr, he, htail]

/-- Scanning a cursor whose every row scans cleanly yields the names in
cursor order. -/
theorem scanTableNames_all_ok :
    ∀ names : List String, scanTableNames (names.map Except.ok) = .ok names := by
  intro names
  induction names with
  | nil => simp [scanTableNames]
  | cons n ns ih => simp [scanTableNames, ih]

/-- When every truncate of a list of tables executes cleanly, the
truncation loop issues `TRUNCATE <name>` for each name in order and
returns nil. -/
theorem truncateEach_all_ok (execErr : String → Option GoErr) :
    ∀ names : List String, (∀ n ∈ names, execErr ("TRUNCATE " ++ n) = none) →
      truncateEach execErr names = (names.map (fun n => "TRUNCATE " ++ n), none) := by
  intro names
  induction names with
  | nil => intro _; simp [truncateEach]
  | cons n ns ih =>
    intro h
    have hn : execErr ("TRUNCATE " ++ n) = none := h n (by simp)
    have htail := ih (fun m hm => h m (by simp [hm]))
    simp [truncateEach, hn, htail]

/-- The truncation loop over `ns1 ++ ns2`, when every truncate of `ns1`
executes cleanly, issues all of `ns1`'s truncates and then behaves as the
loop over `ns2`. -/
theorem truncateEach_append (execErr : String → Option GoErr) :
    ∀ ns1 ns2 : List String, (∀ n ∈ ns1, execErr ("TRUNCATE " ++ n) = none) →
      truncateEach execErr (ns1 ++ ns2)
        = (ns1.map (fun n => "TRUNCATE " ++ n) ++ (truncateEach execErr ns2).1,
           (truncateEach execErr ns2).2) := by
  intro ns1
  induction ns1 with
  | nil => intro ns2 _; simp
  | cons n ns ih =>
    intro ns2 h
    have hn : execErr ("TRUNCATE " ++ n) = none := h n (by simp)
    have htail := ih ns2 (fun m hm => h m (by simp [hm]))
    simp [truncateEach, hn, htail]

/-! ### Claim theorems: Transact -/

/-- C1: for every callback that completes with a non-nil failure result,
`Transact` rolls back the transaction and returns that failure wrapped
(so `errors.Is` against the original error still succeeds), and a failure
of the rollback itself is swallowed and never replaces the returned
error. -/
theorem transact_callback_failure {Ctx Tx : Type} (ctx : Ctx) (tx : Tx)
    (rbe ce : Option GoErr) (f : Ctx → Tx → FOutcome) (e : GoErr)
    (hf : f ctx tx = .fail e) :
    Transact ctx (.ok tx) rbe ce f
      = ([.beginTx, .callF ctx tx, .rollback], .ret (some (.wrap e)))
    ∧ GoErr.is (.wrap e) e = true
    ∧ ∀ r1 r2 : Option GoErr,
        Transact ctx (.ok tx) r1 ce f = Transact ctx (.ok tx) r2 ce f := by
  refine ⟨by simp [Transact, hf, oopsWrapOpt], goErr_is_wrap e, fun r1 r2 => rfl⟩

/-- Witness for C1 at a concrete callback failing with `new "boom"`. -/
theorem transact_callback_failure_witness :
    @Transact Nat Nat 1 (.ok 2) none none
        (fun _ _ => FOutcome.fail (GoErr.new "boom"))
      = ([.beginTx, .callF 1 2, .rollback],
          .ret (some (.wrap (.new "boom")))) :=
  (transact_callback_failure 1 2 none none
    (fun _ _ => FOutcome.fail (GoErr.new "boom")) (GoErr.new "boom") rfl).1

/-- C2: whenever a transaction handle is successfully begun, exactly one
of `tx.Commit` / `tx.Rollback` is invoked on it, exactly once, whatever
the callback does (success, failure, or panic) and whatever commit or
rollback themselves return. -/
theorem transact_commit_or_rollback_once {Ctx Tx : Type} (ctx : Ctx) (tx : Tx)
    (rbe ce : Option GoErr) (f : Ctx → Tx → FOutcome) :
    ((Transact ctx (.ok tx) rbe ce f).1.countP (fun ev => TEvent.isTxEnd ev)) = 1 := by
  cases hf : f ctx tx <;> cases ce <;>
    simp [Transact, hf, List.countP_cons, TEvent.isTxEnd]

/-- C3: a callback that panics inside `Transact` causes a rollback and
then the panic payload is re-propagated unchanged, with no wrapping; a
failure of that best-effort rollback is not reported. -/
theorem transact_panic_repropagated {Ctx Tx : Type} (ctx : Ctx) (tx : Tx)
    (rbe ce : Option GoErr) (f : Ctx → Tx → FOutcome) (p : String)
    (hf : f ctx tx = .panics p) :
    Transact ctx (.ok tx) rbe ce f
      = ([.beginTx, .callF ctx tx, .rollback], .panicked p)
    ∧ ∀ r1 r2 : Option GoErr,
        Transact ctx (.ok tx) r1 ce f = Transact ctx (.ok tx) r2 ce f :=
  ⟨by simp [Transact, hf], fun r1 r2 => rfl⟩

/-- Witness for C3 at a concrete callback panicking with payload
`"kaboom"`. -/
theorem transact_panic_repropagated_witness :
    @Transact Nat Nat 1 (.ok 2) (some (.new "rb-fail")) none
        (fun _ _ => FOutcome.panics "kaboom")
      = ([.beginTx, .callF 1 2, .rollback], .panicked "kaboom") :=
  (transact_panic_repropagated 1 2 (some (.new "rb-fail")) none
    (fun _ _ => FOutcome.panics "kaboom") "kaboom" rfl).1

/-- C4: for every callback that completes successfully, `Transact`
commits; if the commit fails `Transact` returns the commit failure
wrapped, and if the commit succeeds `Transact` returns success (nil). -/
theorem transact_success_commits {Ctx Tx : Type} (ctx : Ctx) (tx : Tx)
    (rbe : Option GoErr) (f : Ctx → Tx → FOutcome)
    (hf : f ctx tx = .ok) :
    Transact ctx (.ok tx) rbe none f
      = ([.beginTx, .callF ctx tx, .commit], .ret none)
    ∧ ∀ ce : GoErr,
        Transact ctx (.ok tx) rbe (some ce) f
          = ([.beginTx, .callF ctx tx, .commit],
              .ret (some (.wrapf "failed to commit transaction" ce))) :=
  ⟨by simp [Transact, hf], fun ce => by simp [Transact, hf]⟩

/-- Witness for C4 at a concrete successful callback. -/
theorem transact_success_commits_witness :
    @Transact Nat Nat 1 (.ok 2) none none
        (fun _ _ => FOutcome.ok)
      = ([.beginTx, .callF 1 2, .commit], .ret none) :=
  (transact_success_commits 1 2 none (fun _ _ => FOutcome.ok) rfl).1

/-- C5: when beginning the transaction fails, `Transact` returns the
begin failure wrapped immediately: the callback is never invoked and
neither commit nor rollback is ever called. -/
theorem transact_begin_failure {Ctx Tx : Type} (ctx : Ctx) (e : GoErr)
    (rbe ce : Option GoErr) (f : Ctx → Tx → FOutcome) :
    Transact ctx (Except.error e) rbe ce f
      = ([.beginTx], .ret (some (.wrapf "failed to begin transaction" e)))
    ∧ (∀ (c : Ctx) (t : Tx),
        TEvent.callF c t ∉ (Transact ctx (Except.error e) rbe ce f).1)
    ∧ ((Transact ctx (Except.error e) rbe ce f).1.countP
        (fun ev => TEvent.isTxEnd ev)) = 0 := by
  refine ⟨rfl, ?_, ?_⟩
  · intro c t
    simp [Transact]
  · simp [Transact, List.countP_cons, TEvent.isTxEnd]

/-- C10: the context handed to the callback is the caller's context
unchanged: any `callF` event in the trace carries exactly the context
`Transact` was invoked with. -/
theorem transact_ctx_unchanged {Ctx Tx : Type} (ctx : Ctx)
    (beginRes : Except GoErr Tx) (rbe ce : Option GoErr)
    (f : Ctx → Tx → FOutcome) (c : Ctx) (t : Tx)
    (h : TEvent.callF c t ∈ (Transact ctx beginRes rbe ce f).1) : c = ctx := by
  cases beginRes with
  | error e => simp [Transact] at h
  | ok tx =>
    cases hf : f ctx tx <;> cases ce <;>
      simp [Transact, hf] at h <;> exact h.1

/-- Witness for C10: a concrete run whose trace contains the `callF`
event with the original context. -/
theorem transact_ctx_unchanged_witness :
    (TEvent.callF 7 0
        ∈ (@Transact Nat Nat 7 (.ok 0) none none
            (fun _ _ => FOutcome.ok)).1)
    ∧ (7 : Nat) = 7 :=
  ⟨by decide,
    transact_ctx_unchanged 7 (.ok 0) none none (fun _ _ => FOutcome.ok) 7 0
      (by decide)⟩

/-! ### Claim theorems: ExecFile -/

/-- C6: for every file whose contents parse into N statements, the parsed
`ExecFile` variant issues exactly N execution calls, one per re-serialized
statement, in source order. -/
theorem execfile_parsed_runs_all_stmts {σ : Type} (path : String)
    (readFn : String → Except GoErr String)
    (parse : String → Except GoErr (List σ))
    (restore : σ → Except GoErr String) (execErr : String → Option GoErr)
    (contents : String) (nodes : List σ) (rt : σ → String)
    (habs : filepathIsAbs path = true)
    (hread : readFn path = .ok contents)
    (hparse : parse contents = .ok nodes)
    (hrestore : ∀ n ∈ nodes, restore n = .ok (rt n))
    (hexec : ∀ n ∈ nodes, execErr (rt n) = none) :
    ExecFileParsed path readFn parse restore execErr
      = ⟨true, nodes.map rt, none⟩
    ∧ (ExecFileParsed path readFn parse restore execErr).calls.length
        = nodes.length := by
  have hloop := execStmtsParsed_all_ok restore execErr rt nodes hrestore hexec
  have hmain : ExecFileParsed path readFn parse restore execErr
      = ⟨true, nodes.map rt, none⟩ := by
    simp [ExecFileParsed, habs, hread, hparse, hloop]
  exact ⟨hmain, by simp [hmain]⟩

/-- Witness for C6: a file parsing into two statements produces exactly
the two restored texts, in order. -/
theorem execfile_parsed_runs_all_stmts_witness :
    ExecFileParsed "/schema.sql" (fun _ => .ok "raw")
        (fun _ => .ok [0, 1])
        (fun n : Nat => .ok (if n = 0 then "A" else "B"))
        (fun _ => none)
      = ⟨true, ["A", "B"], none⟩ :=
  (execfile_parsed_runs_all_stmts "/schema.sql" (fun _ => .ok "raw")
    (fun _ => .ok [0, 1]) (fun n : Nat => .ok (if n = 0 then "A" else "B"))
    (fun _ => none) "raw" [0, 1] (fun n => if n = 0 then "A" else "B")
    (by decide) rfl rfl (fun _ _ => rfl) (fun _ _ => rfl)).1

/-- C7: both `ExecFile` variants reject every non-absolute path with the
configuration error `path must be absolute` before touching the
filesystem: the file is not read and no execution call is issued,
whatever the filesystem or executor would have answered. -/
theorem execfile_relative_path_rejected {σ : Type} (path : String)
    (readFn : String → Except GoErr String) (execErr : String → Option GoErr)
    (readFn' : String → Except GoErr String)
    (parse : String → Except GoErr (List σ))
    (restore : σ → Except GoErr String) (execErr' : String → Option GoErr)
    (hrel : filepathIsAbs path = false) :
    ExecFile path readFn execErr
      = ⟨false, [], some (.new "path must be absolute")⟩
    ∧ ExecFileParsed path readFn' parse restore execErr'
        = ⟨false, [], some (.new "path must be absolute")⟩ := by
  constructor
  · simp [ExecFile, hrel]
  · simp [ExecFileParsed, hrel]

/-- Witness for C7 at the concrete relative path `testdata/schema.sql`. -/
theorem execfile_relative_path_rejected_witness :
    ExecFile "testdata/schema.sql" (fun _ => .ok "raw") (fun _ => none)
      = ⟨false, [], some (.new "path must be absolute")⟩ :=
  (execfile_relative_path_rejected (σ := Nat) "testdata/schema.sql"
    (fun _ => .ok "raw") (fun _ => none) (fun _ => .ok "raw")
    (fun _ => .ok []) (fun _ => .ok "") (fun _ => none) (by decide)).1

/-- C8: in the parsed `ExecFile` variant, a read failure, a parse
failure, a mid-sequence re-serialization failure, or a mid-sequence
execution failure each aborts immediately with a wrapped error naming the
failing phase, and the statements already executed before the failure
remain in the issued-call list (nothing is rolled back). -/
theorem execfile_parsed_abort_policy {σ : Type} (path : String)
    (readFn : String → Except GoErr String)
    (parse : String → Except GoErr (List σ))
    (restore : σ → Except GoErr String) (execErr : String → Option GoErr)
    (rt : σ → String) (habs : filepathIsAbs path = true) :
    (∀ e : GoErr, readFn path = .error e →
        ExecFileParsed path readFn parse restore execErr
          = ⟨true, [], some (.wrapf ("failed to read file: " ++ path) e)⟩)
    ∧ (∀ (contents : String) (e : GoErr), readFn path = .ok contents →
        parse contents = .error e →
        ExecFileParsed path readFn parse restore execErr
          = ⟨true, [], some (.wrapf "failed to parse sql" e)⟩)
    ∧ (∀ (contents : String) (ns1 : List σ) (n : σ) (ns2 : List σ)
        (e : GoErr), readFn path = .ok contents →
        parse contents = .ok (ns1 ++ n :: ns2) →
        (∀ m ∈ ns1, restore m = .ok (rt m)) →
        (∀ m ∈ ns1, execErr (rt m) = none) →
        restore n = .error e →
        ExecFileParsed path readFn parse restore execErr
          = ⟨true, ns1.map rt, some (.wrapf "failed to restore sql" e)⟩)
    ∧ (∀ (contents : String) (ns1 : List σ) (n : σ) (ns2 : List σ)
        (s : String) (e : GoErr), readFn path = .ok contents →
        parse contents = .ok (ns1 ++ n :: ns2) →
        (∀ m ∈ ns1, restore m = .ok (rt m)) →
        (∀ m ∈ ns1, execErr (rt m) = none) →
        restore n = .ok s → execErr s = some e →
        ExecFileParsed path readFn parse restore execErr
          = ⟨true, ns1.map rt ++ [s],
              some (.wrapf "failed to execute sql" e)⟩) := by
  refine ⟨?_, ?_, ?_, ?_⟩
  · intro e hread
    simp [ExecFileParsed, habs, hread]
  · intro contents e hread hparse
    simp [ExecFileParsed, habs, hread, hparse]
  · intro contents ns1 n ns2 e hread hparse h1 h2 hre
    have happ := execStmtsParsed_append restore execErr rt ns1 (n :: ns2) h1 h2
    simp [ExecFileParsed, habs, hread, hparse, happ, execStmtsParsed, hre]
  · intro contents ns1 n ns2 s e hread hparse h1 h2 hre hex
    have happ := execStmtsParsed_append restore execErr rt ns1 (n :: ns2) h1 h2
    simp [ExecFileParsed, habs, hread, hparse, happ, execStmtsParsed, hre, hex]

/-- Witness for C8: three statements where the third one's execution
fails; the first two remain in the issued-call list and the error names
the execution phase. -/
theorem execfile_parsed_abort_policy_witness :
    ExecFileParsed "/s.sql" (fun _ => .ok "raw") (fun _ => .ok [0, 1, 2])
        (fun n : Nat => .ok (if n = 0 then "A" else if n = 1 then "B" else "C"))
        (fun s => if s = "C" then some (GoErr.new "x") else none)
      = ⟨true, ["A", "B", "C"],
          some (.wrapf "failed to execute sql" (.new "x"))⟩ :=
  (execfile_parsed_abort_policy "/s.sql" (fun _ => .ok "raw")
    (fun _ => .ok [0, 1, 2])
    (fun n : Nat => .ok (if n = 0 then "A" else if n = 1 then "B" else "C"))
    (fun s => if s = "C" then some (GoErr.new "x") else none)
    (fun n => if n = 0 then "A" else if n = 1 then "B" else "C")
    (by decide)).2.2.2 "raw" [0, 1] 2 [] "C" (.new "x") rfl rfl
    (fun _ _ => rfl) (by decide) rfl rfl

/-! ### Claim theorems: TruncateAll -/

/-- C9: `TruncateAll` lists all table names via the `SHOW TABLES`
introspection query and then issues one `TRUNCATE` per listed table in
listing order; it aborts on the first failure (of the listing or of any
single truncate) with a wrapped error, leaving the earlier truncations in
the issued-call list. -/
theorem truncateall_behavior (queryFn : String → Except GoErr RowsModel)
    (execErr : String → Option GoErr) :
    (∀ e : GoErr, queryFn "SHOW TABLES" = .error e →
        TruncateAll queryFn execErr
          = ([], some (.wrapf "failed to list all table names"
              (.wrapf "failed to show tables" e))))
    ∧ (∀ names : List String,
        queryFn "SHOW TABLES" = .ok ⟨names.map Except.ok, none, none⟩ →
        (∀ n ∈ names, execErr ("TRUNCATE " ++ n) = none) →
        TruncateAll queryFn execErr
          = (names.map (fun n => "TRUNCATE " ++ n), none))
    ∧ (∀ (ns1 : List String) (n : String) (ns2 : List String) (e : GoErr),
        queryFn "SHOW TABLES" = .ok ⟨(ns1 ++ n :: ns2).map Except.ok, none, none⟩ →
        (∀ m ∈ ns1, execErr ("TRUNCATE " ++ m) = none) →
        execErr ("TRUNCATE " ++ n) = some e →
        TruncateAll queryFn execErr
          = (ns1.map (fun m => "TRUNCATE " ++ m) ++ ["TRUNCATE " ++ n],
             some (.wrapf ("failed to truncate table: " ++ n) e))) := by
  refine ⟨?_, ?_, ?_⟩
  · intro e hq
    simp [TruncateAll, listAllTableNames, hq]
  · intro names hq hall
    have hscan := scanTableNames_all_ok names
    have htr := truncateEach_all_ok execErr names hall
    simp [TruncateAll, listAllTableNames, hq, hscan, htr]
  · intro ns1 n ns2 e hq h1 hn
    have hscan := scanTableNames_all_ok (ns1 ++ n :: ns2)
    have happ := truncateEach_append execErr ns1 (n :: ns2) h1
    simp only [List.map_append, List.map_cons] at hscan
    simp [TruncateAll, listAllTableNames, hq, hscan, happ, truncateEach, hn]

/-- Witness for C9: two tables where truncating the second fails; the
first truncate remains in the issued-call list and the error names the
failing table. -/
theorem truncateall_behavior_witness :
    TruncateAll (fun _ => .ok ⟨[.ok "a", .ok "b"], none, none⟩)
        (fun s => if s = "TRUNCATE b" then some (GoErr.new "x") else none)
      = (["TRUNCATE a", "TRUNCATE b"],
          some (.wrapf "failed to truncate table: b" (.new "x"))) :=
  (truncateall_behavior (fun _ => .ok ⟨[.ok "a", .ok "b"], none, none⟩)
    (fun s => if s = "TRUNCATE b" then some (GoErr.new "x") else none)).2.2
    ["a"] "b" [] (.new "x") rfl (by decide) (by decide)

/-- Witness for C2: a concrete successful run whose trace carries exactly
one commit-or-rollback event. -/
theorem transact_commit_or_rollback_once_witness :
    ((@Transact Nat Nat 1 (.ok 2) none none (fun _ _ => FOutcome.ok)).1.countP
      (fun ev => TEvent.isTxEnd ev)) = 1 :=
  transact_commit_or_rollback_once 1 2 none none (fun _ _ => FOutcome.ok)

/-- Witness for C5: a concrete failing begin returns the wrapped begin
failure with nothing but the begin call in the trace. -/
theorem transact_begin_failure_witness :
    @Transact Nat Nat 1 (Except.error (.new "down")) none none
        (fun _ _ => FOutcome.ok)
      = ([.beginTx], .ret (some (.wrapf "failed to begin transaction" (.new "down")))) :=
  (transact_begin_failure 1 (GoErr.new "down") none none
    (fun _ _ => FOutcome.ok)).1
